import Mathlib

/-!
Shallow embedding of `listener/listener.go` from the trudy repository.

The Go code wraps the standard `net` and `crypto/tls` packages.  We model the
operating system (socket table, file-descriptor table) as an explicit `Kernel`
state threaded through every call, and the outcomes of fallible OS calls
(`AcceptTCP`, `TCPConn.File`, `net.FileConn`) as oracle queues stored in the
kernel state, so that every definition is executable and every failure path of
the Go code is reachable at a concrete input.

Go `panic` is modelled by the `Outcome.panicked` constructor (an abort of the
hosting process, carrying the panic value); a nil-pointer dereference (a Go
runtime panic) is modelled by `Outcome.nilDeref`.  An `error` return value is
modelled by `Option GoError` (`none` is Go's `nil` error).
-/

namespace Trudy

/-- Model of a Go `error` value: we track only the message. -/
structure GoError where
  msg : String
deriving DecidableEq, Repr

/-- Accepting on a nil listener: `net` returns `syscall.EINVAL`. -/
def errEINVAL : GoError := ⟨"invalid argument"⟩

/-- Accept on a socket that is no longer live. -/
def errClosed : GoError := ⟨"use of closed network connection"⟩

/-- A transient kernel-accept failure (resource exhaustion and the like). -/
def errAcceptFail : GoError := ⟨"accept: transient failure"⟩

/-- Bind failure: the requested address is already bound. -/
def errAddrInUse : GoError := ⟨"bind: address already in use"⟩

/-- Failure of descriptor extraction (`TCPConn.File` / `UDPConn.File`). -/
def errFile : GoError := ⟨"file: descriptor extraction failed"⟩

/-- Failure of stream construction (`net.FileConn`). -/
def errFileConn : GoError := ⟨"fileconn: construction failed"⟩

/-- The panic value of `TLSListener.Listen` when no certificate is configured,
from the Go source: `errors.New("tls.Listen: no certificates in configuration")`. -/
def errNoCert : GoError := ⟨"tls.Listen: no certificates in configuration"⟩

/-- Address-resolution failure: the string has no colon. -/
def errMissingPort : GoError := ⟨"missing port in address"⟩

/-- Address-resolution failure: the port part is empty, non-numeric or out of range. -/
def errBadPort : GoError := ⟨"invalid port"⟩

/-- Transport protocol of a socket; TCP and UDP ports live in separate namespaces. -/
inductive Proto where
  | tcp
  | udp
deriving DecidableEq, Repr

/-- A successfully resolved address (model of `*net.TCPAddr` / `*net.UDPAddr`). -/
structure RAddr where
  host : String
  port : Nat
deriving DecidableEq, Repr

/-- The address a live socket is bound to: either the caller-given address or a
system-chosen (wildcard interface, ephemeral port) one, numbered for freshness. -/
inductive BoundAddr where
  | given (a : RAddr)
  | ephemeral (n : Nat)
deriving DecidableEq, Repr

/-- Trace events recorded by the kernel model: bind syscalls, kernel accepts,
and TLS handshakes. -/
inductive Event where
  | bind (p : Proto) (a : BoundAddr)
  | acceptSys
  | handshake
deriving DecidableEq, Repr

/-- The operating-system state threaded through every modelled call.
`sockets` lists the live sockets with their protocol and bound address;
`fdTable` maps file descriptors to socket identifiers (a descriptor obtained by
duplication maps to the same socket as the original).  The three `…Results`
queues are oracles deciding the outcome of successive fallible OS calls; an
empty queue means the call succeeds. -/
structure Kernel where
  nextSock : Nat := 0
  nextFd : Nat := 3
  fdTable : List (Nat × Nat) := []
  sockets : List (Nat × Proto × BoundAddr) := []
  acceptResults : List Bool := []
  fileResults : List Bool := []
  fileConnResults : List Bool := []
  events : List Event := []
deriving DecidableEq, Repr

/-- A socket identifier is live when it is in the kernel's socket table. -/
def isLive (s : Nat) (k : Kernel) : Bool :=
  k.sockets.any fun e => decide (e.1 = s)

/-- An address is in use for a protocol when some live socket is bound to it. -/
def inUse (p : Proto) (a : RAddr) (k : Kernel) : Bool :=
  k.sockets.any fun e => decide (e.2.1 = p) && decide (e.2.2 = BoundAddr.given a)

/-- Look a file descriptor up in an fd table. -/
def lookupFd (fd : Nat) : List (Nat × Nat) → Option Nat
  | [] => none
  | e :: rest => if e.1 = fd then some e.2 else lookupFd fd rest

/-- Model of the bind syscall underlying `net.ListenTCP` / `net.ListenUDP`.
With a concrete address it fails when the address is already bound, otherwise it
creates a fresh live socket; with a nil address (Go semantics) the system
chooses a wildcard/ephemeral address and the bind always succeeds.  Every
attempt that creates a socket records a `bind` event. -/
def bindSocket (p : Proto) (addr : Option RAddr) (k : Kernel) :
    Except GoError (Nat × Kernel) :=
  match addr with
  | some a =>
    if inUse p a k then .error errAddrInUse
    else
      let s := k.nextSock
      .ok (s, { k with nextSock := s + 1,
                       sockets := (s, p, BoundAddr.given a) :: k.sockets,
                       events := k.events ++ [Event.bind p (BoundAddr.given a)] })
  | none =>
      let s := k.nextSock
      .ok (s, { k with nextSock := s + 1,
                       sockets := (s, p, BoundAddr.ephemeral s) :: k.sockets,
                       events := k.events ++ [Event.bind p (BoundAddr.ephemeral s)] })

/-- Model of `net.ListenTCP("tcp", addr)`. -/
def listenTCP (addr : Option RAddr) (k : Kernel) : Except GoError (Nat × Kernel) :=
  bindSocket Proto.tcp addr k

/-- Model of `net.ListenUDP("udp", addr)`. -/
def listenUDP (addr : Option RAddr) (k : Kernel) : Except GoError (Nat × Kernel) :=
  bindSocket Proto.udp addr k

/-- Model of `(*net.TCPListener).AcceptTCP` on a possibly-nil listener.
On a nil listener the `net` package returns `EINVAL` (it does not panic); on a
closed socket it returns an error; otherwise the oracle queue decides whether a
connection is accepted (creating a fresh live connected socket and recording an
`acceptSys` event) or the accept fails transiently. -/
def acceptTCP (l : Option Nat) (k : Kernel) : Except GoError Nat × Kernel :=
  match l with
  | none => (.error errEINVAL, k)
  | some s =>
    if isLive s k then
      match k.acceptResults with
      | true :: rest =>
        let c := k.nextSock
        (.ok c, { k with nextSock := c + 1, acceptResults := rest,
                         sockets := (c, Proto.tcp, BoundAddr.ephemeral c) :: k.sockets,
                         events := k.events ++ [Event.acceptSys] })
      | false :: rest => (.error errAcceptFail, { k with acceptResults := rest })
      | [] => (.error errAcceptFail, k)
    else (.error errClosed, k)

/-- Model of `(*net.TCPConn).File` / `(*net.UDPConn).File` on the socket `s`:
on success it duplicates the descriptor, returning an `os.File` (modelled by its
descriptor number) that refers to the same socket; on failure it returns a nil
file and an error.  The oracle queue decides success. -/
def fileCall (s : Nat) (k : Kernel) : (Option Nat × Option GoError) × Kernel :=
  match k.fileResults with
  | false :: rest => ((none, some errFile), { k with fileResults := rest })
  | true :: rest =>
    let fd := k.nextFd
    ((some fd, none),
     { k with nextFd := fd + 1, fdTable := (fd, s) :: k.fdTable, fileResults := rest })
  | [] =>
    let fd := k.nextFd
    ((some fd, none),
     { k with nextFd := fd + 1, fdTable := (fd, s) :: k.fdTable })

/-- TLS configuration: the Go code only ever inspects `Certificates`, so each
certificate is opaque (a number). -/
structure TLSConfig where
  Certificates : List Nat
deriving DecidableEq, Repr

/-- Model of a `net.Conn` value: either a plain connection wrapping a file
descriptor (the result of `net.FileConn`), or a TLS server-side connection
wrapping an inner connection (the result of `tls.Server`), carrying the
configuration and whether the handshake has already run. -/
inductive Conn where
  | plain (fd : Nat)
  | tls (inner : Conn) (cfg : Option TLSConfig) (handshakeDone : Bool)
deriving DecidableEq, Repr

/-- The kernel socket a connection refers to, through the fd table. -/
def Conn.sockId : Conn → Kernel → Option Nat
  | .plain fd, k => lookupFd fd k.fdTable
  | .tls inner _ _, k => inner.sockId k

/-- Model of `net.FileConn(file)` on the file descriptor `fd`: on success it
duplicates the descriptor, yielding a plain connection on a fresh descriptor
that refers to the same socket; the oracle queue decides failure. -/
def fileConn (fd : Nat) (k : Kernel) : Except GoError Conn × Kernel :=
  match k.fileConnResults with
  | false :: rest => (.error errFileConn, { k with fileConnResults := rest })
  | true :: rest =>
    match lookupFd fd k.fdTable with
    | none => (.error errEINVAL, { k with fileConnResults := rest })
    | some s =>
      let nfd := k.nextFd
      (.ok (Conn.plain nfd),
       { k with nextFd := nfd + 1, fdTable := (nfd, s) :: k.fdTable,
                fileConnResults := rest })
  | [] =>
    match lookupFd fd k.fdTable with
    | none => (.error errEINVAL, k)
    | some s =>
      let nfd := k.nextFd
      (.ok (Conn.plain nfd),
       { k with nextFd := nfd + 1, fdTable := (nfd, s) :: k.fdTable })

/-- Model of `tls.Server(conn, config)`: wraps the connection in a server-side
TLS record layer; no handshake is performed by the constructor. -/
def tlsServer (c : Conn) (cfg : Option TLSConfig) : Conn :=
  Conn.tls c cfg false

/-- Model of reading from a `net.Conn`, after the Go standard library's
documented `crypto/tls` behaviour: on a TLS connection whose handshake has not
yet run, the first read performs the handshake (recorded as a `handshake`
event) before any data moves; otherwise the state is unchanged. -/
def Conn.read : Conn → Kernel → Conn × Kernel
  | .tls inner cfg false, k =>
      (.tls inner cfg true, { k with events := k.events ++ [Event.handshake] })
  | c, k => (c, k)

/-- Model of writing to a `net.Conn`; like `Conn.read`, the first write on a
TLS connection performs the handshake. -/
def Conn.write : Conn → Kernel → Conn × Kernel
  | .tls inner cfg false, k =>
      (.tls inner cfg true, { k with events := k.events ++ [Event.handshake] })
  | c, k => (c, k)

/-- Split a character list at its last colon, returning the parts before and
after; `none` when there is no colon. -/
def splitLastColon : List Char → Option (List Char × List Char)
  | [] => none
  | c :: rest =>
    match splitLastColon rest with
    | some (h, p) => some (c :: h, p)
    | none => if c = ':' then some ([], rest) else none

/-- Numeric value of a digit list (most significant first). -/
def digitsVal (acc : Nat) : List Char → Nat
  | [] => acc
  | c :: rest => digitsVal (acc * 10 + (c.toNat - 48)) rest

/-- Model of `net.ResolveTCPAddr` / `net.ResolveUDPAddr` on a `host:port`
string: fails with a missing-port error when there is no colon, and with a
port error when the port part is empty, non-numeric, or above 65535.  Named
services and DNS lookups are not modelled; a malformed input (such as a string
with no colon) fails exactly as in Go. -/
def resolveAddrString (s : String) : Except GoError RAddr :=
  match splitLastColon s.toList with
  | none => .error errMissingPort
  | some (h, p) =>
    if p.isEmpty then .error errBadPort
    else if p.all Char.isDigit then
      let n := digitsVal 0 p
      if n ≤ 65535 then .ok ⟨String.mk h, n⟩ else .error errBadPort
    else .error errBadPort

/-- The address kept by the Go pattern `addr, _ := net.ResolveTCPAddr(...)`:
the resolution error is discarded and a failed resolution leaves a nil
address. -/
def resolvedOrNil (port : String) : Option RAddr :=
  match resolveAddrString port with
  | .ok a => some a
  | .error _ => none

/-- Outcome of running a modelled Go function: a normal return, a `panic`
aborting the hosting process (carrying the panic value and the kernel state at
the abort), or a nil-pointer dereference (a runtime panic). -/
inductive Outcome (α : Type) where
  | ok (a : α)
  | panicked (e : GoError) (k : Kernel)
  | nilDeref (k : Kernel)
deriving DecidableEq, Repr

/-- The named results `(fd int, conn net.Conn, err error)` of `Accept`,
initialised to Go zero values. -/
structure AcceptResult where
  fd : Nat := 0
  conn : Option Conn := none
  err : Option GoError := none
deriving DecidableEq, Repr

/-- The `TCPListener` struct: a possibly-nil `*net.TCPListener`. -/
structure TCPListener where
  Listener : Option Nat := none
deriving DecidableEq, Repr

/-- The `TLSListener` struct: a possibly-nil `*net.TCPListener` and a
possibly-nil `*tls.Config`. -/
structure TLSListener where
  Listener : Option Nat := none
  Config : Option TLSConfig := none
deriving DecidableEq, Repr

/-- The `UDPListener` struct: a possibly-nil `*net.UDPAddr`. -/
structure UDPListener where
  Laddr : Option RAddr := none
deriving DecidableEq, Repr

/-- `TCPListener.Listen` from the source: resolves the port string discarding
the error, calls `net.ListenTCP`, panics on a bind error, and stores the
listener socket. -/
def TCPListener.Listen (tl : TCPListener) (port : String) (k : Kernel) :
    Outcome (TCPListener × Kernel) :=
  let tcpAddr := resolvedOrNil port
  match listenTCP tcpAddr k with
  | .error e => .panicked e k
  | .ok (s, k') => .ok ({ tl with Listener := some s }, k')

/-- `TCPListener.Accept` from the source: kernel accept (early return on
error), then `cpointer.File()` with NO error check — on a nil file the
continuation faults with a runtime nil-pointer panic (`file.Fd()` itself is
nil-safe and yields the invalid descriptor, but `net.FileConn`'s error
wrapping dereferences the nil file), modelled as `Outcome.nilDeref` — then
`net.FileConn`, whose error overwrites the extraction error; `fd` is set
before the `FileConn` call. -/
def TCPListener.Accept (tl : TCPListener) (k : Kernel) :
    Outcome (AcceptResult × Kernel) :=
  match acceptTCP tl.Listener k with
  | (.error e, k1) => .ok ({ fd := 0, conn := none, err := some e }, k1)
  | (.ok c, k1) =>
    match fileCall c k1 with
    | ((none, _), k2) => .nilDeref k2
    | ((some f, _), k2) =>
      match fileConn f k2 with
      | (.error e, k3) => .ok ({ fd := f, conn := none, err := some e }, k3)
      | (.ok cn, k3) => .ok ({ fd := f, conn := some cn, err := none }, k3)

/-- `TCPListener.Close` from the source: closes the underlying listener. -/
def TCPListener.Close (tl : TCPListener) (k : Kernel) : Option GoError × Kernel :=
  match tl.Listener with
  | none => (some errEINVAL, k)
  | some s =>
    if isLive s k then
      (none, { k with sockets := k.sockets.filter fun e => !decide (e.1 = s) })
    else (some errClosed, k)

/-- `TLSListener.Accept` from the source: kernel accept, `File()` WITH an error
check, `fd` set before `net.FileConn`, and on success the stream is wrapped by
`tls.Server` using the stored configuration. -/
def TLSListener.Accept (tl : TLSListener) (k : Kernel) :
    Outcome (AcceptResult × Kernel) :=
  match acceptTCP tl.Listener k with
  | (.error e, k1) => .ok ({ fd := 0, conn := none, err := some e }, k1)
  | (.ok c, k1) =>
    match fileCall c k1 with
    | ((none, e), k2) => .ok ({ fd := 0, conn := none, err := e }, k2)
    | ((some f, _), k2) =>
      match fileConn f k2 with
      | (.error e, k3) => .ok ({ fd := f, conn := none, err := some e }, k3)
      | (.ok fconn, k3) =>
        .ok ({ fd := f, conn := some (tlsServer fconn tl.Config), err := none }, k3)

/-- `TLSListener.Listen` from the source: resolves the port discarding the
error, panics when the configuration has no certificates (dereferencing a nil
configuration), otherwise binds via `net.ListenTCP`, panicking on a bind
error, and stores the listener socket and configuration. -/
def TLSListener.Listen (tl : TLSListener) (port : String) (config : Option TLSConfig)
    (k : Kernel) : Outcome (TLSListener × Kernel) :=
  let tcpAddr := resolvedOrNil port
  match config with
  | none => .nilDeref k
  | some cfg =>
    if cfg.Certificates.length = 0 then .panicked errNoCert k
    else
      match listenTCP tcpAddr k with
      | .error e => .panicked e k
      | .ok (s, k') => .ok ({ tl with Listener := some s, Config := some cfg }, k')

/-- `TLSListener.Close` from the source: closes the underlying listener. -/
def TLSListener.Close (tl : TLSListener) (k : Kernel) : Option GoError × Kernel :=
  match tl.Listener with
  | none => (some errEINVAL, k)
  | some s =>
    if isLive s k then
      (none, { k with sockets := k.sockets.filter fun e => !decide (e.1 = s) })
    else (some errClosed, k)

/-- `UDPListener.Listen` from the source: only resolves the port string
(discarding the error) and stores the address; no socket is created and the
kernel state is untouched. -/
def UDPListener.Listen (ul : UDPListener) (port : String) (k : Kernel) :
    UDPListener × Kernel :=
  ({ ul with Laddr := resolvedOrNil port }, k)

/-- `UDPListener.Accept` from the source: each call runs `net.ListenUDP` on the
stored address (binding a NEW socket), then `File()` with an error check, sets
`fd`, and runs `net.FileConn`. -/
def UDPListener.Accept (ul : UDPListener) (k : Kernel) :
    Outcome (AcceptResult × Kernel) :=
  match listenUDP ul.Laddr k with
  | .error e => .ok ({ fd := 0, conn := none, err := some e }, k)
  | .ok (usock, k1) =>
    match fileCall usock k1 with
    | ((none, e), k2) => .ok ({ fd := 0, conn := none, err := e }, k2)
    | ((some f, _), k2) =>
      match fileConn f k2 with
      | (.error e, k3) => .ok ({ fd := f, conn := none, err := some e }, k3)
      | (.ok c, k3) => .ok ({ fd := f, conn := some c, err := none }, k3)

/-- `UDPListener.Close` from the source: unconditionally returns a nil error,
touching nothing. -/
def UDPListener.Close (_ul : UDPListener) : Option GoError := none

/-- Number of TLS handshakes recorded in the kernel trace. -/
def handshakeCount (k : Kernel) : Nat :=
  k.events.countP fun e => decide (e = Event.handshake)

/-! Helper lemmas: inversion of the modelled OS calls. -/

theorem lookupFd_head (f s : Nat) (t : List (Nat × Nat)) :
    lookupFd f ((f, s) :: t) = some s := by
  simp [lookupFd]

theorem lookupFd_cons_ne {f g : Nat} (s : Nat) (t : List (Nat × Nat)) (h : g ≠ f) :
    lookupFd f ((g, s) :: t) = lookupFd f t := by
  simp [lookupFd, h]

theorem isLive_of_mem {s : Nat} {k : Kernel} (pb : Proto × BoundAddr)
    (h : (s, pb) ∈ k.sockets) : isLive s k = true := by
  simp only [isLive, List.any_eq_true, decide_eq_true_eq]
  exact ⟨(s, pb), h, rfl⟩

theorem acceptTCP_ok {l : Option Nat} {k : Kernel} {c : Nat} {k1 : Kernel}
    (h : acceptTCP l k = (.ok c, k1)) :
    c = k.nextSock ∧
    k1.sockets = (c, Proto.tcp, BoundAddr.ephemeral c) :: k.sockets ∧
    k1.fdTable = k.fdTable ∧ k1.nextFd = k.nextFd ∧
    k1.fileResults = k.fileResults ∧ k1.fileConnResults = k.fileConnResults ∧
    k1.events = k.events ++ [Event.acceptSys] := by
  unfold acceptTCP at h
  split at h
  · simp at h
  · split at h
    · split at h <;> simp_all
      obtain ⟨rfl, rfl⟩ := h
      simp
    · simp at h

theorem fileCall_ok {s : Nat} {k : Kernel} {f : Nat} {e : Option GoError} {k2 : Kernel}
    (h : fileCall s k = ((some f, e), k2)) :
    f = k.nextFd ∧ k2.fdTable = (k.nextFd, s) :: k.fdTable ∧
    k2.sockets = k.sockets ∧ k2.nextFd = k.nextFd + 1 ∧
    k2.fileConnResults = k.fileConnResults ∧ k2.events = k.events := by
  unfold fileCall at h
  split at h <;> simp_all <;> obtain ⟨⟨rfl, rfl⟩, rfl⟩ := h <;> simp

theorem fileConn_ok {f : Nat} {k : Kernel} {cn : Conn} {k3 : Kernel}
    (h : fileConn f k = (.ok cn, k3)) :
    ∃ s, lookupFd f k.fdTable = some s ∧ cn = Conn.plain k.nextFd ∧
    k3.fdTable = (k.nextFd, s) :: k.fdTable ∧ k3.sockets = k.sockets ∧
    k3.nextFd = k.nextFd + 1 ∧ k3.events = k.events := by
  unfold fileConn at h
  split at h
  · simp at h
  · split at h
    · simp at h
    · simp_all
      obtain ⟨rfl, rfl⟩ := h
      simp
  · split at h
    · simp at h
    · simp_all
      obtain ⟨rfl, rfl⟩ := h
      simp

theorem acceptTCP_error {l : Option Nat} {k : Kernel} {e : GoError} {k1 : Kernel}
    (h : acceptTCP l k = (.error e, k1)) :
    (e = errEINVAL ∨ e = errClosed ∨ e = errAcceptFail) ∧
    k1.events = k.events ∧ k1.sockets = k.sockets ∧ k1.fdTable = k.fdTable := by
  unfold acceptTCP at h
  split at h
  · simp_all
  · split at h
    · split at h <;> simp_all <;> obtain ⟨rfl, rfl⟩ := h <;> simp
    · simp_all

theorem fileCall_fail {s : Nat} {k : Kernel} {e : Option GoError} {k2 : Kernel}
    (h : fileCall s k = ((none, e), k2)) :
    e = some errFile ∧ k2.events = k.events ∧ k2.sockets = k.sockets ∧
    k2.fdTable = k.fdTable := by
  unfold fileCall at h
  split at h <;> simp_all
  obtain ⟨rfl, rfl⟩ := h
  simp

theorem fileConn_error {f : Nat} {k : Kernel} {e : GoError} {k3 : Kernel}
    (h : fileConn f k = (.error e, k3)) :
    (e = errFileConn ∨ e = errEINVAL) ∧ k3.events = k.events ∧
    k3.sockets = k.sockets ∧ k3.fdTable = k.fdTable := by
  unfold fileConn at h
  split at h
  · simp_all
    obtain ⟨rfl, rfl⟩ := h
    simp
  · split at h <;> simp_all <;> obtain ⟨rfl, rfl⟩ := h <;> simp
  · split at h <;> simp_all <;> obtain ⟨rfl, rfl⟩ := h <;> simp

theorem bindSocket_ok {p : Proto} {a : Option RAddr} {k : Kernel} {s : Nat} {k1 : Kernel}
    (h : bindSocket p a k = .ok (s, k1)) :
    s = k.nextSock ∧
    (∃ ba, k1.sockets = (s, p, ba) :: k.sockets ∧
           k1.events = k.events ++ [Event.bind p ba]) ∧
    k1.fdTable = k.fdTable ∧ k1.nextFd = k.nextFd ∧
    k1.fileResults = k.fileResults ∧ k1.fileConnResults = k.fileConnResults := by
  unfold bindSocket at h
  split at h
  · split at h
    · simp at h
    · simp_all
      obtain ⟨rfl, rfl⟩ := h
      simp
  · simp_all
    obtain ⟨rfl, rfl⟩ := h
    simp

theorem handshakeCount_acceptSys {k k' : Kernel}
    (h : k'.events = k.events ++ [Event.acceptSys]) :
    handshakeCount k' = handshakeCount k := by
  simp [handshakeCount, h, List.countP_append, List.countP_cons, List.countP_nil]

theorem handshakeCount_congr {k k' : Kernel} (h : k'.events = k.events) :
    handshakeCount k' = handshakeCount k := by
  simp [handshakeCount, h]

theorem isLive_congr {s : Nat} {k k' : Kernel} (h : k'.sockets = k.sockets) :
    isLive s k' = isLive s k := by
  simp [isLive, h]

/-- Core aliasing fact: after a successful `File` call on a live socket `c`
followed by a successful `FileConn`, the descriptor returned by `File` and the
connection returned by `FileConn` both refer to `c`, which is still live. -/
theorem alias_aux {c : Nat} {k1 : Kernel} {f : Nat} {e : Option GoError}
    {k2 : Kernel} {cn : Conn} {k3 : Kernel}
    (hlive : isLive c k1 = true)
    (h2 : fileCall c k1 = ((some f, e), k2))
    (h3 : fileConn f k2 = (.ok cn, k3)) :
    lookupFd f k3.fdTable = some c ∧ cn.sockId k3 = some c ∧ isLive c k3 = true := by
  obtain ⟨hf, hfd2, hs2, hn2, _, _⟩ := fileCall_ok h2
  obtain ⟨s', hlook, hcn, hfd3, hs3, hn3, _⟩ := fileConn_ok h3
  rw [hfd2, hf, lookupFd_head] at hlook
  obtain rfl : s' = c := by injection hlook.symm
  have hne : k2.nextFd ≠ f := by omega
  refine ⟨?_, ?_, ?_⟩
  · rw [hfd3, lookupFd_cons_ne _ _ hne, hfd2, hf, lookupFd_head]
  · rw [hcn]
    simp only [Conn.sockId]
    rw [hfd3, lookupFd_head]
  · rw [isLive_congr hs3, isLive_congr hs2]
    exact hlive

/-- Shape of every error-returning branch of the three `Accept`
implementations: a non-nil error comes with a nil stream. -/
theorem tcp_accept_err_conn_none {tl : TCPListener} {k : Kernel} {r : AcceptResult}
    {k' : Kernel} (h : TCPListener.Accept tl k = .ok (r, k')) (he : r.err.isSome) :
    r.conn = none := by
  unfold TCPListener.Accept at h
  split at h <;> try split at h
  · simp_all
    obtain ⟨rfl, rfl⟩ := h
    rfl
  · simp at h
  · split at h <;> simp_all <;> obtain ⟨rfl, rfl⟩ := h <;> simp_all

theorem tls_accept_err_conn_none {tl : TLSListener} {k : Kernel} {r : AcceptResult}
    {k' : Kernel} (h : TLSListener.Accept tl k = .ok (r, k')) (he : r.err.isSome) :
    r.conn = none := by
  unfold TLSListener.Accept at h
  split at h <;> try split at h
  · simp_all
    obtain ⟨rfl, rfl⟩ := h
    rfl
  · simp_all
    obtain ⟨rfl, rfl⟩ := h
    rfl
  · split at h <;> simp_all <;> obtain ⟨rfl, rfl⟩ := h <;> simp_all

theorem udp_accept_err_conn_none {ul : UDPListener} {k : Kernel} {r : AcceptResult}
    {k' : Kernel} (h : UDPListener.Accept ul k = .ok (r, k')) (he : r.err.isSome) :
    r.conn = none := by
  unfold UDPListener.Accept at h
  split at h <;> try split at h
  · simp_all
    obtain ⟨rfl, rfl⟩ := h
    rfl
  · simp_all
    obtain ⟨rfl, rfl⟩ := h
    rfl
  · split at h <;> simp_all <;> obtain ⟨rfl, rfl⟩ := h <;> simp_all

/-- On the Plain variant, when the kernel accept succeeds but descriptor
extraction fails, `Accept` dereferences the nil file handle and faults. -/
theorem tcp_accept_file_fail_faults {tl : TCPListener} {k : Kernel} {s : Nat}
    {ta tf : List Bool} (hl : tl.Listener = some s) (hlive : isLive s k = true)
    (hacc : k.acceptResults = true :: ta) (hfile : k.fileResults = false :: tf) :
    ∃ k2, TCPListener.Accept tl k = .nilDeref k2 := by
  unfold TCPListener.Accept acceptTCP fileCall
  rw [hl]
  simp [hlive, hacc, hfile]

/-- New socket creation by each Datagram `Accept`: a successful call grows the
kernel socket table by one. -/
theorem udp_accept_creates_socket {ul : UDPListener} {k : Kernel} {r : AcceptResult}
    {k' : Kernel} (h : UDPListener.Accept ul k = .ok (r, k')) (he : r.err = none) :
    k'.sockets.length = k.sockets.length + 1 := by
  unfold UDPListener.Accept at h
  rcases hq1 : listenUDP ul.Laddr k with e | ⟨usock, k1⟩
  · rw [hq1] at h
    simp at h
    obtain ⟨rfl, rfl⟩ := h
    simp at he
  · rw [hq1] at h
    simp only [] at h
    rcases hq2 : fileCall usock k1 with ⟨⟨fo, e2⟩, k2⟩
    rw [hq2] at h
    cases fo with
    | none =>
      obtain ⟨rfl, -⟩ := fileCall_fail hq2
      simp at h
      obtain ⟨rfl, rfl⟩ := h
      simp at he
    | some f =>
      simp only [] at h
      rcases hq3 : fileConn f k2 with ⟨ec, k3⟩
      rw [hq3] at h
      cases ec with
      | error e3 =>
        simp at h
        obtain ⟨rfl, rfl⟩ := h
        simp at he
      | ok cn =>
        simp at h
        obtain ⟨rfl, rfl⟩ := h
        have hq1' : bindSocket Proto.udp ul.Laddr k = .ok (usock, k1) := hq1
        obtain ⟨-, ⟨ba, hs1, -⟩, -⟩ := bindSocket_ok hq1'
        obtain ⟨-, -, hs2, -⟩ := fileCall_ok hq2
        obtain ⟨-, -, -, -, hs3, -⟩ := fileConn_ok hq3
        rw [hs3, hs2, hs1]
        simp

/-- On the Plain variant a kernel-accept failure returns the zero descriptor,
a nil stream and the accept error. -/
theorem tcp_accept_syscall_fail {tl : TCPListener} {k : Kernel} {s : Nat}
    {ta : List Bool} (hl : tl.Listener = some s) (hlive : isLive s k = true)
    (hacc : k.acceptResults = false :: ta) :
    TCPListener.Accept tl k =
      .ok ({ fd := 0, conn := none, err := some errAcceptFail },
           { k with acceptResults := ta }) := by
  unfold TCPListener.Accept acceptTCP
  rw [hl]
  simp [hlive, hacc]

/-- On the Secured variant a kernel-accept failure returns the zero
descriptor, a nil stream and the accept error. -/
theorem tls_accept_syscall_fail {tl : TLSListener} {k : Kernel} {s : Nat}
    {ta : List Bool} (hl : tl.Listener = some s) (hlive : isLive s k = true)
    (hacc : k.acceptResults = false :: ta) :
    TLSListener.Accept tl k =
      .ok ({ fd := 0, conn := none, err := some errAcceptFail },
           { k with acceptResults := ta }) := by
  unfold TLSListener.Accept acceptTCP
  rw [hl]
  simp [hlive, hacc]

/-- On the Datagram variant, the bind performed by `Accept` fails with an
address-in-use error when the stored address is already bound, returning the
zero descriptor and a nil stream. -/
theorem udp_accept_addr_in_use {ul : UDPListener} {a : RAddr} {k : Kernel}
    (hl : ul.Laddr = some a) (hin : inUse Proto.udp a k = true) :
    UDPListener.Accept ul k =
      .ok ({ fd := 0, conn := none, err := some errAddrInUse }, k) := by
  unfold UDPListener.Accept listenUDP bindSocket
  rw [hl]
  simp [hin]

/-- On the Plain variant a stream-construction failure returns the descriptor
already extracted by `File` (not zero), a nil stream and the error. -/
theorem tcp_accept_fileconn_fail {tl : TCPListener} {k : Kernel} {s : Nat}
    {ta tf tc : List Bool} (hl : tl.Listener = some s) (hlive : isLive s k = true)
    (hacc : k.acceptResults = true :: ta) (hfile : k.fileResults = true :: tf)
    (hfc : k.fileConnResults = false :: tc) :
    ∃ k', TCPListener.Accept tl k =
      .ok ({ fd := k.nextFd, conn := none, err := some errFileConn }, k') := by
  unfold TCPListener.Accept acceptTCP fileCall fileConn
  rw [hl]
  simp [hlive, hacc, hfile, hfc]

/-- On the Secured variant a stream-construction failure returns the
descriptor already extracted by `File` (not zero), a nil stream and the
error. -/
theorem tls_accept_fileconn_fail {tl : TLSListener} {k : Kernel} {s : Nat}
    {ta tf tc : List Bool} (hl : tl.Listener = some s) (hlive : isLive s k = true)
    (hacc : k.acceptResults = true :: ta) (hfile : k.fileResults = true :: tf)
    (hfc : k.fileConnResults = false :: tc) :
    ∃ k', TLSListener.Accept tl k =
      .ok ({ fd := k.nextFd, conn := none, err := some errFileConn }, k') := by
  unfold TLSListener.Accept acceptTCP fileCall fileConn
  rw [hl]
  simp [hlive, hacc, hfile, hfc]

/-- On the Datagram variant a stream-construction failure returns the
descriptor already extracted by `File` (not zero), a nil stream and the
error. -/
theorem udp_accept_fileconn_fail {ul : UDPListener} {a : RAddr} {k : Kernel}
    {tf tc : List Bool} (hl : ul.Laddr = some a) (hin : inUse Proto.udp a k = false)
    (hfile : k.fileResults = true :: tf) (hfc : k.fileConnResults = false :: tc) :
    ∃ k', UDPListener.Accept ul k =
      .ok ({ fd := k.nextFd, conn := none, err := some errFileConn }, k') := by
  unfold UDPListener.Accept listenUDP bindSocket fileCall fileConn
  rw [hl]
  simp [hin, hfile, hfc]

/-- On the Secured variant a descriptor-extraction failure returns the zero
descriptor, a nil stream and the extraction error. -/
theorem tls_accept_file_fail {tl : TLSListener} {k : Kernel} {s : Nat}
    {ta tf : List Bool} (hl : tl.Listener = some s) (hlive : isLive s k = true)
    (hacc : k.acceptResults = true :: ta) (hfile : k.fileResults = false :: tf) :
    ∃ k', TLSListener.Accept tl k =
      .ok ({ fd := 0, conn := none, err := some errFile }, k') := by
  unfold TLSListener.Accept acceptTCP fileCall
  rw [hl]
  simp [hlive, hacc, hfile]

/-- On the Datagram variant a descriptor-extraction failure returns the zero
descriptor, a nil stream and the extraction error. -/
theorem udp_accept_file_fail {ul : UDPListener} {a : RAddr} {k : Kernel}
    {tf : List Bool} (hl : ul.Laddr = some a) (hin : inUse Proto.udp a k = false)
    (hfile : k.fileResults = false :: tf) :
    ∃ k', UDPListener.Accept ul k =
      .ok ({ fd := 0, conn := none, err := some errFile }, k') := by
  unfold UDPListener.Accept listenUDP bindSocket fileCall
  rw [hl]
  simp [hin, hfile]

/-- Success path of the Plain variant: descriptor and stream alias one live
socket. -/
theorem tcp_accept_ok_alias {tl : TCPListener} {k : Kernel} {r : AcceptResult}
    {k' : Kernel} (h : TCPListener.Accept tl k = .ok (r, k')) (he : r.err = none) :
    ∃ s c, r.conn = some c ∧ lookupFd r.fd k'.fdTable = some s ∧
      c.sockId k' = some s ∧ isLive s k' = true := by
  unfold TCPListener.Accept at h
  rcases hq1 : acceptTCP tl.Listener k with ⟨er, k1⟩
  rw [hq1] at h
  cases er with
  | error e =>
    simp at h
    obtain ⟨rfl, rfl⟩ := h
    simp at he
  | ok c =>
    simp only [] at h
    rcases hq2 : fileCall c k1 with ⟨⟨fo, e2⟩, k2⟩
    rw [hq2] at h
    cases fo with
    | none => simp at h
    | some f =>
      simp only [] at h
      rcases hq3 : fileConn f k2 with ⟨ec, k3⟩
      rw [hq3] at h
      cases ec with
      | error e3 =>
        simp at h
        obtain ⟨rfl, rfl⟩ := h
        simp at he
      | ok cn =>
        simp at h
        obtain ⟨rfl, rfl⟩ := h
        have hlive : isLive c k1 = true := by
          obtain ⟨-, hs1, -⟩ := acceptTCP_ok hq1
          exact isLive_of_mem _ (by rw [hs1]; exact List.mem_cons_self _ _)
        obtain ⟨hlk, hsid, hlv⟩ := alias_aux hlive hq2 hq3
        exact ⟨c, cn, rfl, hlk, hsid, hlv⟩

/-- Success path of the Secured variant: descriptor and TLS stream alias one
live socket. -/
theorem tls_accept_ok_alias {tl : TLSListener} {k : Kernel} {r : AcceptResult}
    {k' : Kernel} (h : TLSListener.Accept tl k = .ok (r, k')) (he : r.err = none) :
    ∃ s c, r.conn = some c ∧ lookupFd r.fd k'.fdTable = some s ∧
      c.sockId k' = some s ∧ isLive s k' = true := by
  unfold TLSListener.Accept at h
  rcases hq1 : acceptTCP tl.Listener k with ⟨er, k1⟩
  rw [hq1] at h
  cases er with
  | error e =>
    simp at h
    obtain ⟨rfl, rfl⟩ := h
    simp at he
  | ok c =>
    simp only [] at h
    rcases hq2 : fileCall c k1 with ⟨⟨fo, e2⟩, k2⟩
    rw [hq2] at h
    cases fo with
    | none =>
      obtain ⟨rfl, -⟩ := fileCall_fail hq2
      simp at h
      obtain ⟨rfl, rfl⟩ := h
      simp at he
    | some f =>
      simp only [] at h
      rcases hq3 : fileConn f k2 with ⟨ec, k3⟩
      rw [hq3] at h
      cases ec with
      | error e3 =>
        simp at h
        obtain ⟨rfl, rfl⟩ := h
        simp at he
      | ok cn =>
        simp at h
        obtain ⟨rfl, rfl⟩ := h
        have hlive : isLive c k1 = true := by
          obtain ⟨-, hs1, -⟩ := acceptTCP_ok hq1
          exact isLive_of_mem _ (by rw [hs1]; exact List.mem_cons_self _ _)
        obtain ⟨hlk, hsid, hlv⟩ := alias_aux hlive hq2 hq3
        exact ⟨c, tlsServer cn tl.Config, rfl, hlk, hsid, hlv⟩

/-- Success path of the Datagram variant: descriptor and stream alias the one
socket bound by this `Accept` call. -/
theorem udp_accept_ok_alias {ul : UDPListener} {k : Kernel} {r : AcceptResult}
    {k' : Kernel} (h : UDPListener.Accept ul k = .ok (r, k')) (he : r.err = none) :
    ∃ s c, r.conn = some c ∧ lookupFd r.fd k'.fdTable = some s ∧
      c.sockId k' = some s ∧ isLive s k' = true := by
  unfold UDPListener.Accept at h
  rcases hq1 : listenUDP ul.Laddr k with e | ⟨usock, k1⟩
  · rw [hq1] at h
    simp at h
    obtain ⟨rfl, rfl⟩ := h
    simp at he
  · rw [hq1] at h
    simp only [] at h
    rcases hq2 : fileCall usock k1 with ⟨⟨fo, e2⟩, k2⟩
    rw [hq2] at h
    cases fo with
    | none =>
      obtain ⟨rfl, -⟩ := fileCall_fail hq2
      simp at h
      obtain ⟨rfl, rfl⟩ := h
      simp at he
    | some f =>
      simp only [] at h
      rcases hq3 : fileConn f k2 with ⟨ec, k3⟩
      rw [hq3] at h
      cases ec with
      | error e3 =>
        simp at h
        obtain ⟨rfl, rfl⟩ := h
        simp at he
      | ok cn =>
        simp at h
        obtain ⟨rfl, rfl⟩ := h
        have hq1' : bindSocket Proto.udp ul.Laddr k = .ok (usock, k1) := hq1
        have hlive : isLive usock k1 = true := by
          obtain ⟨-, ⟨ba, hs1, -⟩, -⟩ := bindSocket_ok hq1'
          exact isLive_of_mem _ (by rw [hs1]; exact List.mem_cons_self _ _)
        obtain ⟨hlk, hsid, hlv⟩ := alias_aux hlive hq2 hq3
        exact ⟨usock, cn, rfl, hlk, hsid, hlv⟩

theorem tcp_accept_err_not_errFile {tl : TCPListener} {k : Kernel} {r : AcceptResult}
    {k' : Kernel} (h : TCPListener.Accept tl k = .ok (r, k')) :
    r.err ≠ some errFile := by
  unfold TCPListener.Accept at h
  rcases hq1 : acceptTCP tl.Listener k with ⟨er, k1⟩
  rw [hq1] at h
  cases er with
  | error e =>
    simp at h
    obtain ⟨rfl, rfl⟩ := h
    obtain ⟨he, -⟩ := acceptTCP_error hq1
    rcases he with rfl | rfl | rfl <;>
      simp [errEINVAL, errClosed, errAcceptFail, errFile]
  | ok c =>
    simp only [] at h
    rcases hq2 : fileCall c k1 with ⟨⟨fo, e2⟩, k2⟩
    rw [hq2] at h
    cases fo with
    | none => simp at h
    | some f =>
      simp only [] at h
      rcases hq3 : fileConn f k2 with ⟨ec, k3⟩
      rw [hq3] at h
      cases ec with
      | error e3 =>
        simp at h
        obtain ⟨rfl, rfl⟩ := h
        obtain ⟨he, -⟩ := fileConn_error hq3
        rcases he with rfl | rfl <;> simp [errFileConn, errEINVAL, errFile]
      | ok cn =>
        simp at h
        obtain ⟨rfl, rfl⟩ := h
        simp

/-! Concrete fixtures used by counterexamples and witnesses. -/

/-- A concrete resolvable address. -/
def addrH1 : RAddr := ⟨"h", 1⟩

/-- A concrete resolvable address for the Datagram fixtures. -/
def aH9 : RAddr := ⟨"h", 9⟩

/-- Kernel in which the TCP address h:1 is already bound. -/
def kBound : Kernel := { nextSock := 1, sockets := [(0, Proto.tcp, BoundAddr.given addrH1)] }

/-- A Plain listener holding the live socket 0. -/
def tlLive : TCPListener := { Listener := some 0 }

/-- A Secured listener holding the live socket 0 and a one-certificate
configuration. -/
def tlsLive : TLSListener := { Listener := some 0, Config := some ⟨[7]⟩ }

/-- Kernel with a live listening socket 0 and one pending connection. -/
def kAcc : Kernel :=
  { nextSock := 1, sockets := [(0, Proto.tcp, BoundAddr.ephemeral 0)],
    acceptResults := [true] }

/-- Kernel state after a successful `Accept` on `kAcc`. -/
def kAccAfter : Kernel :=
  { nextSock := 2, nextFd := 5, fdTable := [(4, 1), (3, 1)],
    sockets := [(1, Proto.tcp, BoundAddr.ephemeral 1), (0, Proto.tcp, BoundAddr.ephemeral 0)],
    events := [Event.acceptSys] }

/-- Result of a successful Plain `Accept` on `kAcc`. -/
def rAcc : AcceptResult := { fd := 3, conn := some (Conn.plain 4) }

/-- Result of a successful Secured `Accept` on `kAcc` by `tlsLive`. -/
def rAccTLS : AcceptResult :=
  { fd := 3, conn := some (Conn.tls (Conn.plain 4) (some ⟨[7]⟩) false) }

/-- Kernel like `kAcc` but whose next `FileConn` call fails. -/
def kFCf : Kernel :=
  { nextSock := 1, sockets := [(0, Proto.tcp, BoundAddr.ephemeral 0)],
    acceptResults := [true], fileConnResults := [false] }

/-- Result of the Plain `Accept` on `kFCf`: extraction already set fd 3. -/
def rFCf : AcceptResult := { fd := 3, err := some errFileConn }

/-- Kernel state after the Plain `Accept` on `kFCf`. -/
def kFCfAfter : Kernel :=
  { nextSock := 2, nextFd := 4, fdTable := [(3, 1)],
    sockets := [(1, Proto.tcp, BoundAddr.ephemeral 1), (0, Proto.tcp, BoundAddr.ephemeral 0)],
    events := [Event.acceptSys] }

/-- Kernel like `kAcc` but whose next `File` call fails. -/
def kFf : Kernel :=
  { nextSock := 1, sockets := [(0, Proto.tcp, BoundAddr.ephemeral 0)],
    acceptResults := [true], fileResults := [false] }

/-- Kernel state after the Secured `Accept` on `kFf`. -/
def kFfAfter : Kernel :=
  { nextSock := 2,
    sockets := [(1, Proto.tcp, BoundAddr.ephemeral 1), (0, Proto.tcp, BoundAddr.ephemeral 0)],
    events := [Event.acceptSys] }

/-- A Datagram listener with the concrete stored address h:9. -/
def ulH9 : UDPListener := { Laddr := some aH9 }

/-- Kernel state after the first Datagram `Accept` by `ulH9` on the empty
kernel: the socket bound at h:9 is live. -/
def kU1 : Kernel :=
  { nextSock := 1, nextFd := 5, fdTable := [(4, 0), (3, 0)],
    sockets := [(0, Proto.udp, BoundAddr.given aH9)],
    events := [Event.bind Proto.udp (BoundAddr.given aH9)] }

/-- Result of the first Datagram `Accept` by `ulH9` on the empty kernel. -/
def rU1 : AcceptResult := { fd := 3, conn := some (Conn.plain 4) }

/-- Empty kernel whose next `FileConn` call fails (the `File` call
succeeds). -/
def kUfc : Kernel := { fileResults := [true], fileConnResults := [false] }

/-! Claim theorems. -/

/-- C1 counterexample: at concrete inputs, a bind failure (address in use) in
`TCPListener.Listen` and a missing-certificate failure in `TLSListener.Listen`
are not reported to the caller as error values: both abort the hosting process
(Go `panic`, modelled by `Outcome.panicked`).  `Listen` has no error result at
all, so no structured error value reaches the caller. -/
theorem listen_bind_failure_aborts_cex :
    TCPListener.Listen {} "h:1" kBound = .panicked errAddrInUse kBound ∧
    TLSListener.Listen {} "h:1" (some ⟨[]⟩) kBound = .panicked errNoCert kBound :=
  ⟨rfl, rfl⟩

/-- C1 (amended): a failure detected by `Listen` — a bind error such as
address-in-use on either stream variant, or missing certificates on the
Secured variant — aborts the hosting process by panicking with the error
value; `Listen` returns no structured error to the caller. -/
theorem listen_failures_abort_process :
    (∀ (tl : TCPListener) (port : String) (a : RAddr) (k : Kernel),
       resolveAddrString port = .ok a → inUse Proto.tcp a k = true →
       TCPListener.Listen tl port k = .panicked errAddrInUse k) ∧
    (∀ (tl : TLSListener) (port : String) (cfg : TLSConfig) (k : Kernel),
       cfg.Certificates = [] →
       TLSListener.Listen tl port (some cfg) k = .panicked errNoCert k) ∧
    (∀ (tl : TLSListener) (port : String) (a : RAddr) (cfg : TLSConfig) (k : Kernel),
       resolveAddrString port = .ok a → cfg.Certificates ≠ [] →
       inUse Proto.tcp a k = true →
       TLSListener.Listen tl port (some cfg) k = .panicked errAddrInUse k) := by
  refine ⟨?_, ?_, ?_⟩
  · intro tl port a k hres hin
    unfold TCPListener.Listen listenTCP bindSocket resolvedOrNil
    rw [hres]
    simp [hin]
  · intro tl port cfg k hc
    unfold TLSListener.Listen
    simp [hc]
  · intro tl port a cfg k hres hc hin
    unfold TLSListener.Listen listenTCP bindSocket resolvedOrNil
    rw [hres]
    simp [hc, hin, List.length_eq_zero]

/-- Witness for the amended C1 theorem at concrete inputs. -/
theorem listen_failures_abort_process_witness :
    TCPListener.Listen {} "h:1" kBound = .panicked errAddrInUse kBound ∧
    TLSListener.Listen {} "h:1" (some ⟨[7]⟩) kBound = .panicked errAddrInUse kBound :=
  ⟨listen_failures_abort_process.1 {} "h:1" addrH1 kBound rfl rfl,
   listen_failures_abort_process.2.2 {} "h:1" addrH1 ⟨[7]⟩ kBound rfl (by simp) rfl⟩

/-- C2: for every variant, when `Accept` returns with a nil error, the
returned descriptor and the returned stream refer to the same live kernel
socket at the moment `Accept` returns: both resolve to one socket identifier
that is in the kernel's live-socket table of the returned state. -/
theorem accept_descriptor_stream_alias :
    (∀ (tl : TCPListener) (k : Kernel) (r : AcceptResult) (k' : Kernel),
       TCPListener.Accept tl k = .ok (r, k') → r.err = none →
       ∃ s c, r.conn = some c ∧ lookupFd r.fd k'.fdTable = some s ∧
         c.sockId k' = some s ∧ isLive s k' = true) ∧
    (∀ (tl : TLSListener) (k : Kernel) (r : AcceptResult) (k' : Kernel),
       TLSListener.Accept tl k = .ok (r, k') → r.err = none →
       ∃ s c, r.conn = some c ∧ lookupFd r.fd k'.fdTable = some s ∧
         c.sockId k' = some s ∧ isLive s k' = true) ∧
    (∀ (ul : UDPListener) (k : Kernel) (r : AcceptResult) (k' : Kernel),
       UDPListener.Accept ul k = .ok (r, k') → r.err = none →
       ∃ s c, r.conn = some c ∧ lookupFd r.fd k'.fdTable = some s ∧
         c.sockId k' = some s ∧ isLive s k' = true) :=
  ⟨fun _ _ _ _ h he => tcp_accept_ok_alias h he,
   fun _ _ _ _ h he => tls_accept_ok_alias h he,
   fun _ _ _ _ h he => udp_accept_ok_alias h he⟩

/-- Witness for C2 at a concrete successful Plain `Accept`. -/
theorem accept_descriptor_stream_alias_witness :
    ∃ s c, rAcc.conn = some c ∧ lookupFd rAcc.fd kAccAfter.fdTable = some s ∧
      c.sockId kAccAfter = some s ∧ isLive s kAccAfter = true :=
  accept_descriptor_stream_alias.1 tlLive kAcc rAcc kAccAfter rfl rfl

/-- C3 counterexample: on the Plain variant, when the kernel accept and
descriptor extraction succeed but stream construction (`net.FileConn`) fails,
`Accept` returns a non-nil error and a nil stream but NOT the zero descriptor:
it returns the already-extracted descriptor 3. -/
theorem accept_fileconn_fail_nonzero_fd_cex :
    TCPListener.Accept tlLive kFCf = .ok (rFCf, kFCfAfter) ∧
    rFCf.err = some errFileConn ∧ rFCf.conn = none ∧ rFCf.fd = 3 ∧ rFCf.fd ≠ 0 :=
  ⟨rfl, rfl, rfl, rfl, by simp [rFCf]⟩

/-- C3 (amended): whenever a step of `Accept` fails and `Accept` returns, it
returns a nil stream and a non-nil error.  The descriptor is zero when the
accept-step syscall itself fails (the kernel accept on the Plain and Secured
variants, the bind performed by `Accept` on the Datagram variant) and when
descriptor extraction fails on the Secured and Datagram variants; when stream
construction fails, on every variant the already-extracted descriptor is
returned instead of zero; and on the Plain variant a descriptor-extraction
failure does not return at all — it faults on a nil dereference. -/
theorem accept_error_return_shape :
    (∀ (tl : TCPListener) (k : Kernel) (r : AcceptResult) (k' : Kernel),
       TCPListener.Accept tl k = .ok (r, k') → r.err.isSome → r.conn = none) ∧
    (∀ (tl : TLSListener) (k : Kernel) (r : AcceptResult) (k' : Kernel),
       TLSListener.Accept tl k = .ok (r, k') → r.err.isSome → r.conn = none) ∧
    (∀ (ul : UDPListener) (k : Kernel) (r : AcceptResult) (k' : Kernel),
       UDPListener.Accept ul k = .ok (r, k') → r.err.isSome → r.conn = none) ∧
    (∀ (tl : TCPListener) (k : Kernel) (s : Nat) (ta : List Bool),
       tl.Listener = some s → isLive s k = true → k.acceptResults = false :: ta →
       TCPListener.Accept tl k =
         .ok ({ fd := 0, conn := none, err := some errAcceptFail },
              { k with acceptResults := ta })) ∧
    (∀ (tl : TLSListener) (k : Kernel) (s : Nat) (ta : List Bool),
       tl.Listener = some s → isLive s k = true → k.acceptResults = false :: ta →
       TLSListener.Accept tl k =
         .ok ({ fd := 0, conn := none, err := some errAcceptFail },
              { k with acceptResults := ta })) ∧
    (∀ (tl : TLSListener) (k : Kernel) (s : Nat) (ta tf : List Bool),
       tl.Listener = some s → isLive s k = true → k.acceptResults = true :: ta →
       k.fileResults = false :: tf →
       ∃ k', TLSListener.Accept tl k =
         .ok ({ fd := 0, conn := none, err := some errFile }, k')) ∧
    (∀ (ul : UDPListener) (a : RAddr) (k : Kernel) (tf : List Bool),
       ul.Laddr = some a → inUse Proto.udp a k = false → k.fileResults = false :: tf →
       ∃ k', UDPListener.Accept ul k =
         .ok ({ fd := 0, conn := none, err := some errFile }, k')) ∧
    (∀ (tl : TCPListener) (k : Kernel) (s : Nat) (ta tf : List Bool),
       tl.Listener = some s → isLive s k = true → k.acceptResults = true :: ta →
       k.fileResults = false :: tf →
       ∃ k2, TCPListener.Accept tl k = .nilDeref k2) ∧
    (∀ (tl : TCPListener) (k : Kernel) (s : Nat) (ta tf tc : List Bool),
       tl.Listener = some s → isLive s k = true → k.acceptResults = true :: ta →
       k.fileResults = true :: tf → k.fileConnResults = false :: tc →
       ∃ k', TCPListener.Accept tl k =
         .ok ({ fd := k.nextFd, conn := none, err := some errFileConn }, k')) ∧
    (∀ (ul : UDPListener) (a : RAddr) (k : Kernel),
       ul.Laddr = some a → inUse Proto.udp a k = true →
       UDPListener.Accept ul k =
         .ok ({ fd := 0, conn := none, err := some errAddrInUse }, k)) ∧
    (∀ (tl : TLSListener) (k : Kernel) (s : Nat) (ta tf tc : List Bool),
       tl.Listener = some s → isLive s k = true → k.acceptResults = true :: ta →
       k.fileResults = true :: tf → k.fileConnResults = false :: tc →
       ∃ k', TLSListener.Accept tl k =
         .ok ({ fd := k.nextFd, conn := none, err := some errFileConn }, k')) ∧
    (∀ (ul : UDPListener) (a : RAddr) (k : Kernel) (tf tc : List Bool),
       ul.Laddr = some a → inUse Proto.udp a k = false →
       k.fileResults = true :: tf → k.fileConnResults = false :: tc →
       ∃ k', UDPListener.Accept ul k =
         .ok ({ fd := k.nextFd, conn := none, err := some errFileConn }, k')) :=
  ⟨fun _ _ _ _ h he => tcp_accept_err_conn_none h he,
   fun _ _ _ _ h he => tls_accept_err_conn_none h he,
   fun _ _ _ _ h he => udp_accept_err_conn_none h he,
   fun _ _ _ _ hl hlive hacc => tcp_accept_syscall_fail hl hlive hacc,
   fun _ _ _ _ hl hlive hacc => tls_accept_syscall_fail hl hlive hacc,
   fun _ _ _ _ _ hl hlive hacc hfile => tls_accept_file_fail hl hlive hacc hfile,
   fun _ _ _ _ hl hin hfile => udp_accept_file_fail hl hin hfile,
   fun _ _ _ _ _ hl hlive hacc hfile => tcp_accept_file_fail_faults hl hlive hacc hfile,
   fun _ _ _ _ _ _ hl hlive hacc hfile hfc =>
     tcp_accept_fileconn_fail hl hlive hacc hfile hfc,
   fun _ _ _ hl hin => udp_accept_addr_in_use hl hin,
   fun _ _ _ _ _ _ hl hlive hacc hfile hfc =>
     tls_accept_fileconn_fail hl hlive hacc hfile hfc,
   fun _ _ _ _ _ hl hin hfile hfc => udp_accept_fileconn_fail hl hin hfile hfc⟩

/-- Witness for the amended C3 theorem, exercising each conjunct at concrete
inputs. -/
theorem accept_error_return_shape_witness :
    rFCf.conn = none ∧
    ({ fd := 0, conn := none, err := some errFile } : AcceptResult).conn = none ∧
    ({ fd := 0, conn := none, err := some errAddrInUse } : AcceptResult).conn = none ∧
    TCPListener.Accept tlLive { kAcc with acceptResults := [false] } =
      .ok ({ fd := 0, conn := none, err := some errAcceptFail },
           { kAcc with acceptResults := [] }) ∧
    TLSListener.Accept tlsLive { kAcc with acceptResults := [false] } =
      .ok ({ fd := 0, conn := none, err := some errAcceptFail },
           { kAcc with acceptResults := [] }) ∧
    (∃ k', TLSListener.Accept tlsLive kFf =
       .ok ({ fd := 0, conn := none, err := some errFile }, k')) ∧
    (∃ k', UDPListener.Accept ulH9 { fileResults := [false] } =
       .ok ({ fd := 0, conn := none, err := some errFile }, k')) ∧
    (∃ k2, TCPListener.Accept tlLive kFf = .nilDeref k2) ∧
    (∃ k', TCPListener.Accept tlLive { kFCf with fileResults := [true] } =
       .ok ({ fd := kFCf.nextFd, conn := none, err := some errFileConn }, k')) ∧
    UDPListener.Accept ulH9 kU1 =
      .ok ({ fd := 0, conn := none, err := some errAddrInUse }, kU1) ∧
    (∃ k', TLSListener.Accept tlsLive { kFCf with fileResults := [true] } =
       .ok ({ fd := 3, conn := none, err := some errFileConn }, k')) ∧
    (∃ k', UDPListener.Accept ulH9 kUfc =
       .ok ({ fd := 3, conn := none, err := some errFileConn }, k')) :=
  ⟨accept_error_return_shape.1 tlLive kFCf rFCf kFCfAfter rfl rfl,
   accept_error_return_shape.2.1 tlsLive kFf
     { fd := 0, conn := none, err := some errFile } kFfAfter rfl rfl,
   accept_error_return_shape.2.2.1 ulH9 kU1
     { fd := 0, conn := none, err := some errAddrInUse } kU1 rfl rfl,
   accept_error_return_shape.2.2.2.1 tlLive { kAcc with acceptResults := [false] } 0 []
     rfl rfl rfl,
   accept_error_return_shape.2.2.2.2.1 tlsLive { kAcc with acceptResults := [false] } 0 []
     rfl rfl rfl,
   accept_error_return_shape.2.2.2.2.2.1 tlsLive kFf 0 [] [] rfl rfl rfl rfl,
   accept_error_return_shape.2.2.2.2.2.2.1 ulH9 aH9 { fileResults := [false] } []
     rfl rfl rfl,
   accept_error_return_shape.2.2.2.2.2.2.2.1 tlLive kFf 0 [] [] rfl rfl rfl rfl,
   accept_error_return_shape.2.2.2.2.2.2.2.2.1 tlLive { kFCf with fileResults := [true] }
     0 [] [] [] rfl rfl rfl rfl rfl,
   accept_error_return_shape.2.2.2.2.2.2.2.2.2.1 ulH9 aH9 kU1 rfl rfl,
   accept_error_return_shape.2.2.2.2.2.2.2.2.2.2.1 tlsLive { kFCf with fileResults := [true] }
     0 [] [] [] rfl rfl rfl rfl rfl,
   accept_error_return_shape.2.2.2.2.2.2.2.2.2.2.2 ulH9 aH9 kUfc [] []
     rfl rfl rfl rfl⟩

/-- C4 counterexample: two consecutive Datagram `Accept` calls with no
intervening `Close` and a concrete stored address do NOT yield equivalent
handles to one bound socket: the first call binds a fresh socket and succeeds,
the second call's bind fails with address-in-use, returning no handle at all
(zero descriptor, nil stream, non-nil error). -/
theorem udp_accept_twice_not_same_socket_cex :
    UDPListener.Accept ulH9 {} = .ok (rU1, kU1) ∧ rU1.err = none ∧
    UDPListener.Accept ulH9 kU1 =
      .ok ({ fd := 0, conn := none, err := some errAddrInUse }, kU1) :=
  ⟨rfl, rfl, rfl⟩

/-- C4 (amended): each successful Datagram `Accept` binds a NEW socket (the
kernel socket table grows by one) rather than returning a handle to an
existing bound socket, and when the stored address is already bound — as after
a previous `Accept` with no intervening `Close` — the call fails with an
address-in-use error instead of yielding an equivalent handle. -/
theorem udp_accept_new_socket_each_call :
    (∀ (ul : UDPListener) (k : Kernel) (r : AcceptResult) (k' : Kernel),
       UDPListener.Accept ul k = .ok (r, k') → r.err = none →
       k'.sockets.length = k.sockets.length + 1) ∧
    (∀ (ul : UDPListener) (a : RAddr) (k : Kernel),
       ul.Laddr = some a → inUse Proto.udp a k = true →
       UDPListener.Accept ul k =
         .ok ({ fd := 0, conn := none, err := some errAddrInUse }, k)) :=
  ⟨fun _ _ _ _ h he => udp_accept_creates_socket h he,
   fun _ _ _ hl hin => udp_accept_addr_in_use hl hin⟩

/-- Witness for the amended C4 theorem at concrete inputs. -/
theorem udp_accept_new_socket_each_call_witness :
    kU1.sockets.length = ({} : Kernel).sockets.length + 1 ∧
    UDPListener.Accept ulH9 kU1 =
      .ok ({ fd := 0, conn := none, err := some errAddrInUse }, kU1) :=
  ⟨udp_accept_new_socket_each_call.1 ulH9 {} rU1 kU1 rfl rfl,
   udp_accept_new_socket_each_call.2 ulH9 aH9 kU1 rfl rfl⟩

/-- C5: `Listen` on the Secured variant with an empty certificate sequence
fails carrying the configuration error, and the failure is detected before
any bind syscall is attempted: the kernel state of the outcome is exactly the
input state, so no socket was bound and no bind event was recorded.  (The
failure is delivered by panic — see C1 — but it is the configuration error and
it precedes the bind.) -/
theorem tls_listen_no_cert_fails_before_bind :
    ∀ (tl : TLSListener) (port : String) (cfg : TLSConfig) (k : Kernel),
      cfg.Certificates = [] →
      TLSListener.Listen tl port (some cfg) k = .panicked errNoCert k := by
  intro tl port cfg k hc
  unfold TLSListener.Listen
  simp [hc]

/-- Witness for C5 at a concrete input. -/
theorem tls_listen_no_cert_fails_before_bind_witness :
    TLSListener.Listen {} "h:1" (some ⟨[]⟩) {} = .panicked errNoCert {} :=
  tls_listen_no_cert_fails_before_bind {} "h:1" ⟨[]⟩ {} rfl

/-- C6 counterexample: on the Datagram variant a successful `Listen` binds
nothing: at a concrete input it only stores the resolved address and returns
the kernel state unchanged — no live socket and no bind event exist after
`Listen`; the socket is only created later, by `Accept`. -/
theorem udp_listen_binds_nothing_cex :
    UDPListener.Listen {} "h:9" {} = ({ Laddr := some aH9 }, ({} : Kernel)) ∧
    ({} : Kernel).sockets = [] ∧ ({} : Kernel).events = [] :=
  ⟨rfl, rfl, rfl⟩

/-- C6 (amended): a successful `Listen` binds the listening socket at the
given address on the Plain and Secured variants (the socket is live and a bind
event is recorded from `Listen` onward); on the Datagram variant `Listen`
leaves the kernel untouched — it only resolves and stores the address — and
the socket is created by each later `Accept` call. -/
theorem listen_binds_only_stream_variants :
    (∀ (tl : TCPListener) (port : String) (a : RAddr) (k : Kernel),
       resolveAddrString port = .ok a → inUse Proto.tcp a k = false →
       ∃ k', TCPListener.Listen tl port k =
           .ok ({ tl with Listener := some k.nextSock }, k') ∧
         (k.nextSock, Proto.tcp, BoundAddr.given a) ∈ k'.sockets ∧
         k'.events = k.events ++ [Event.bind Proto.tcp (BoundAddr.given a)]) ∧
    (∀ (tl : TLSListener) (port : String) (a : RAddr) (cfg : TLSConfig) (k : Kernel),
       resolveAddrString port = .ok a → cfg.Certificates ≠ [] →
       inUse Proto.tcp a k = false →
       ∃ k', TLSListener.Listen tl port (some cfg) k =
           .ok ({ tl with Listener := some k.nextSock, Config := some cfg }, k') ∧
         (k.nextSock, Proto.tcp, BoundAddr.given a) ∈ k'.sockets ∧
         k'.events = k.events ++ [Event.bind Proto.tcp (BoundAddr.given a)]) ∧
    (∀ (ul : UDPListener) (port : String) (k : Kernel),
       (UDPListener.Listen ul port k).2 = k) ∧
    (∀ (ul : UDPListener) (k : Kernel) (r : AcceptResult) (k' : Kernel),
       UDPListener.Accept ul k = .ok (r, k') → r.err = none →
       k'.sockets.length = k.sockets.length + 1) := by
  refine ⟨?_, ?_, ?_, fun _ _ _ _ h he => udp_accept_creates_socket h he⟩
  · intro tl port a k hres hin
    unfold TCPListener.Listen listenTCP bindSocket resolvedOrNil
    rw [hres]
    simp [hin]
  · intro tl port a cfg k hres hc hin
    unfold TLSListener.Listen listenTCP bindSocket resolvedOrNil
    rw [hres]
    simp [hc, hin, List.length_eq_zero]
  · intro ul port k
    rfl

/-- Witness for the amended C6 theorem at concrete inputs. -/
theorem listen_binds_only_stream_variants_witness :
    (∃ k', TCPListener.Listen {} "h:1" {} =
        .ok ({ Listener := some 0 }, k') ∧
      (0, Proto.tcp, BoundAddr.given addrH1) ∈ k'.sockets ∧
      k'.events = [] ++ [Event.bind Proto.tcp (BoundAddr.given addrH1)]) ∧
    (∃ k', TLSListener.Listen {} "h:1" (some ⟨[7]⟩) {} =
        .ok ({ Listener := some 0, Config := some ⟨[7]⟩ }, k') ∧
      (0, Proto.tcp, BoundAddr.given addrH1) ∈ k'.sockets ∧
      k'.events = [] ++ [Event.bind Proto.tcp (BoundAddr.given addrH1)]) ∧
    (UDPListener.Listen {} "h:9" {}).2 = {} ∧
    kU1.sockets.length = ({} : Kernel).sockets.length + 1 :=
  ⟨listen_binds_only_stream_variants.1 {} "h:1" addrH1 {} rfl rfl,
   listen_binds_only_stream_variants.2.1 {} "h:1" addrH1 ⟨[7]⟩ {} rfl (by simp) rfl,
   listen_binds_only_stream_variants.2.2.1 {} "h:9" {},
   listen_binds_only_stream_variants.2.2.2 ulH9 {} rU1 kU1 rfl rfl⟩

/-- C7: `Close` on the Datagram variant always returns success (a nil error),
for every listener value, hence regardless of whether `Listen` was previously
called: the implementation is a state-independent no-op. -/
theorem udp_close_always_nil : ∀ ul : UDPListener, UDPListener.Close ul = none :=
  fun _ => rfl

/-- C8: `Accept` on the Secured variant performs no TLS handshake (the
handshake count of the kernel trace is unchanged by any returning `Accept`);
on success the returned stream is the accepted plain socket wrapped in a
server-side TLS record layer built from the listener's stored configuration
with the handshake still pending; and the handshake occurs exactly at the
first read or write on the returned stream. -/
theorem tls_accept_lazy_handshake :
    (∀ (tl : TLSListener) (k : Kernel) (r : AcceptResult) (k' : Kernel),
       TLSListener.Accept tl k = .ok (r, k') →
       handshakeCount k' = handshakeCount k ∧
       (r.err = none →
         ∃ fd, r.conn = some (Conn.tls (Conn.plain fd) tl.Config false))) ∧
    (∀ (c : Conn) (cfg : Option TLSConfig) (k : Kernel),
       Conn.read (Conn.tls c cfg false) k =
         (Conn.tls c cfg true, { k with events := k.events ++ [Event.handshake] }) ∧
       Conn.write (Conn.tls c cfg false) k =
         (Conn.tls c cfg true, { k with events := k.events ++ [Event.handshake] })) := by
  refine ⟨?_, fun c cfg k => ⟨rfl, rfl⟩⟩
  intro tl k r k' h
  unfold TLSListener.Accept at h
  rcases hq1 : acceptTCP tl.Listener k with ⟨er, k1⟩
  rw [hq1] at h
  cases er with
  | error e =>
    simp at h
    obtain ⟨rfl, rfl⟩ := h
    obtain ⟨-, hev, -⟩ := acceptTCP_error hq1
    exact ⟨handshakeCount_congr hev, by simp⟩
  | ok c =>
    simp only [] at h
    rcases hq2 : fileCall c k1 with ⟨⟨fo, e2⟩, k2⟩
    rw [hq2] at h
    obtain ⟨-, -, -, -, -, -, hev1⟩ := acceptTCP_ok hq1
    cases fo with
    | none =>
      obtain ⟨rfl, hev2, -⟩ := fileCall_fail hq2
      simp at h
      obtain ⟨rfl, rfl⟩ := h
      refine ⟨?_, by simp⟩
      rw [handshakeCount_congr hev2]
      exact handshakeCount_acceptSys hev1
    | some f =>
      simp only [] at h
      obtain ⟨-, -, -, -, -, hev2⟩ := fileCall_ok hq2
      rcases hq3 : fileConn f k2 with ⟨ec, k3⟩
      rw [hq3] at h
      cases ec with
      | error e3 =>
        simp at h
        obtain ⟨rfl, rfl⟩ := h
        obtain ⟨-, hev3, -⟩ := fileConn_error hq3
        refine ⟨?_, by simp⟩
        rw [handshakeCount_congr hev3, handshakeCount_congr hev2]
        exact handshakeCount_acceptSys hev1
      | ok cn =>
        simp at h
        obtain ⟨rfl, rfl⟩ := h
        obtain ⟨s', -, hcn, -, -, -, hev3⟩ := fileConn_ok hq3
        constructor
        · rw [handshakeCount_congr hev3, handshakeCount_congr hev2]
          exact handshakeCount_acceptSys hev1
        · intro he
          exact ⟨k2.nextFd, by rw [hcn]; rfl⟩

/-- Witness for C8 at a concrete successful Secured `Accept`. -/
theorem tls_accept_lazy_handshake_witness :
    handshakeCount kAccAfter = handshakeCount kAcc ∧
    (rAccTLS.err = none →
      ∃ fd, rAccTLS.conn = some (Conn.tls (Conn.plain fd) tlsLive.Config false)) :=
  tls_accept_lazy_handshake.1 tlsLive kAcc rAccTLS kAccAfter rfl

/-- C9: on the Plain variant, a descriptor-extraction failure after a
successful kernel accept is never returned to the caller: `Accept` faults on
the nil file handle (nil dereference) instead of returning, so no returning
call of `Accept` ever carries the extraction error — its error variable is
overwritten by the stream-construction call on the success path. -/
theorem tcp_accept_extraction_error_swallowed :
    (∀ (tl : TCPListener) (k : Kernel) (s : Nat) (ta tf : List Bool),
       tl.Listener = some s → isLive s k = true →
       k.acceptResults = true :: ta → k.fileResults = false :: tf →
       ∃ k2, TCPListener.Accept tl k = .nilDeref k2) ∧
    (∀ (tl : TCPListener) (k : Kernel) (r : AcceptResult) (k' : Kernel),
       TCPListener.Accept tl k = .ok (r, k') → r.err ≠ some errFile) :=
  ⟨fun _ _ _ _ _ hl hlive hacc hfile => tcp_accept_file_fail_faults hl hlive hacc hfile,
   fun _ _ _ _ h => tcp_accept_err_not_errFile h⟩

/-- Witness for C9 at concrete inputs. -/
theorem tcp_accept_extraction_error_swallowed_witness :
    (∃ k2, TCPListener.Accept tlLive kFf = .nilDeref k2) ∧
    rFCf.err ≠ some errFile :=
  ⟨tcp_accept_extraction_error_swallowed.1 tlLive kFf 0 [] [] rfl rfl rfl rfl,
   tcp_accept_extraction_error_swallowed.2 tlLive kFCf rFCf kFCfAfter rfl⟩

/-- C10: every variant's `Listen` discards the address-resolution error: when
the port string is malformed the resolved address is nil and no failure is
reported — the Plain and Secured variants bind a system-chosen
(wildcard/ephemeral) address at `Listen`, and the Datagram variant stores a
nil address at `Listen` and binds a system-chosen address at the next
`Accept`. -/
theorem listen_discards_resolve_error :
    ∀ (port : String) (e : GoError), resolveAddrString port = .error e →
    (∀ (tl : TCPListener) (k : Kernel),
       ∃ k', TCPListener.Listen tl port k =
           .ok ({ tl with Listener := some k.nextSock }, k') ∧
         (k.nextSock, Proto.tcp, BoundAddr.ephemeral k.nextSock) ∈ k'.sockets) ∧
    (∀ (tl : TLSListener) (cfg : TLSConfig) (k : Kernel), cfg.Certificates ≠ [] →
       ∃ k', TLSListener.Listen tl port (some cfg) k =
           .ok ({ tl with Listener := some k.nextSock, Config := some cfg }, k') ∧
         (k.nextSock, Proto.tcp, BoundAddr.ephemeral k.nextSock) ∈ k'.sockets) ∧
    (∀ (ul : UDPListener) (k : Kernel),
       UDPListener.Listen ul port k = ({ ul with Laddr := none }, k)) ∧
    (∀ k2 : Kernel, k2.fileResults = [] → k2.fileConnResults = [] →
       ∃ r k', UDPListener.Accept { Laddr := none } k2 = .ok (r, k') ∧
         r.err = none ∧
         (k2.nextSock, Proto.udp, BoundAddr.ephemeral k2.nextSock) ∈ k'.sockets) := by
  intro port e hres
  have hnil : resolvedOrNil port = none := by
    unfold resolvedOrNil
    rw [hres]
  refine ⟨?_, ?_, ?_, ?_⟩
  · intro tl k
    unfold TCPListener.Listen listenTCP bindSocket
    rw [hnil]
    simp
  · intro tl cfg k hc
    unfold TLSListener.Listen listenTCP bindSocket
    rw [hnil]
    simp [hc, List.length_eq_zero]
  · intro ul k
    unfold UDPListener.Listen
    rw [hnil]
  · intro k2 hf hfc
    unfold UDPListener.Accept listenUDP bindSocket fileCall fileConn
    simp [hf, hfc, lookupFd]
    exact ⟨_, _, ⟨rfl, rfl⟩, rfl, by simp⟩

/-- Witness for C10 at the malformed port string "nop" (no colon). -/
theorem listen_discards_resolve_error_witness :
    (∃ k', TCPListener.Listen {} "nop" {} = .ok ({ Listener := some 0 }, k') ∧
       (0, Proto.tcp, BoundAddr.ephemeral 0) ∈ k'.sockets) ∧
    UDPListener.Listen {} "nop" {} = ({ Laddr := none }, ({} : Kernel)) ∧
    (∃ r k', UDPListener.Accept { Laddr := none } {} = .ok (r, k') ∧ r.err = none ∧
       (0, Proto.udp, BoundAddr.ephemeral 0) ∈ k'.sockets) :=
  ⟨(listen_discards_resolve_error "nop" errMissingPort rfl).1 {} {},
   (listen_discards_resolve_error "nop" errMissingPort rfl).2.2.1 {} {},
   (listen_discards_resolve_error "nop" errMissingPort rfl).2.2.2 {} rfl rfl⟩

end Trudy
